import Mathlib

/-!
Verification of the Anthropic reverse proxy (`.proxy/anthropic-proxy.py`).

The file shallowly embeds the proxy's request-handling logic:
header construction, credential injection, the exception-to-status
translation of the `except` chain, the response relay (streaming and
buffered), the CORS pre-flight handler, and the startup banner.
Bytes are modelled as natural numbers, header maps as the insertion-ordered
association lists that Python `dict` semantics produce, and the
environment's behaviour (the upstream response, which I/O calls raise)
as an explicit `Scenario` record.
-/

namespace AnthropicProxy

/-- Bytes of a body; the byte values themselves are never inspected. -/
abbrev Bytes := List Nat

/-- `ANTHROPIC_HOST` constant (line 25). -/
def ANTHROPIC_HOST : String := "api.anthropic.com"

/-- `ANTHROPIC_PORT` constant (line 26). -/
def ANTHROPIC_PORT : Nat := 443

/-- `SKIP_REQUEST_HEADERS` (line 31): request headers that are not forwarded. -/
def SKIP_REQUEST_HEADERS : List String := ["host", "transfer-encoding"]

/-- `SKIP_RESPONSE_HEADERS` (line 32): response headers that are not forwarded. -/
def SKIP_RESPONSE_HEADERS : List String := ["transfer-encoding", "connection"]

/-- ASCII lowercase of one character. -/
def lowerChar (c : Char) : Char :=
  if 65 ≤ c.toNat ∧ c.toNat ≤ 90 then Char.ofNat (c.toNat + 32) else c

/-- Python `str.lower()`.  ASCII case folding: all header names the code
compares against are ASCII, and every comparison in the source is against
an ASCII constant. -/
def lower (s : String) : String := ⟨s.data.map lowerChar⟩

/-- `email.message.Message.get`: case-insensitive lookup returning the FIRST
matching header value, `None` when absent.  This is the behaviour of
`self.headers.get(...)` in the handler. -/
def headersGet (hs : List (String × String)) (name : String) : Option String :=
  (hs.find? (fun p => decide (lower p.1 = lower name))).map Prod.snd

/-- Python truthiness of an `Optional[str]`: `None` and the empty string are falsy. -/
def pyTruthy : Option String → Bool
  | none => false
  | some s => decide (s ≠ "")

/-- Python `dict.__setitem__` on an insertion-ordered association list with
exact (case-sensitive) keys: overwriting keeps the original position,
a fresh key is appended. -/
def dictInsert (d : List (String × String)) (k v : String) : List (String × String) :=
  if d.any (fun p => decide (p.1 = k)) then
    d.map (fun p => if p.1 = k then (k, v) else p)
  else d ++ [(k, v)]

/-- The header-copying loop of `_proxy_request` (lines 68-70): every inbound
header whose lowercased name is not in the skip-set is written into the
outbound dict (exact-name keyed, later duplicates overwrite). -/
def copyHeaders : List (String × String) → List (String × String) → List (String × String)
  | [], acc => acc
  | p :: rest, acc =>
    if lower p.1 ∈ SKIP_REQUEST_HEADERS then copyHeaders rest acc
    else copyHeaders rest (dictInsert acc p.1 p.2)

/-- Lines 62-70 of `_proxy_request`: start from `{"Host": ANTHROPIC_HOST}`,
inject `x-api-key` when the configured key is non-empty and the inbound
`get("x-api-key")` is falsy (absent, or first match has empty value), then
copy the inbound headers minus the skip-set. -/
def buildOutboundHeaders (apiKey : String) (inbound : List (String × String)) :
    List (String × String) :=
  copyHeaders inbound
    (if apiKey ≠ "" ∧ pyTruthy (headersGet inbound "x-api-key") = false then
      dictInsert [("Host", ANTHROPIC_HOST)] "x-api-key" apiKey
    else [("Host", ANTHROPIC_HOST)])

/-- Kinds of Python exception relevant to the `except` chain of
`_proxy_request` (lines 107-114).  The hierarchy facts used:
`ConnectionRefusedError < ConnectionError < OSError` and is NOT an
`http.client.HTTPException`, NOT an `ssl.SSLError` and NOT a
`TimeoutError`; `socket.timeout` IS `TimeoutError` (Python >= 3.10). -/
inductive ExcKind where
  | httpException
  | sslError
  | connectionRefused
  | timeoutError
  | valueError
  | other
deriving DecidableEq

/-- A raised Python exception: its kind and its `str(e)` text. -/
structure PyError where
  kind : ExcKind
  msg : String
deriving DecidableEq

/-- The `except` chain (lines 107-114), tried in source order:
`HTTPException` 502, `ssl.SSLError` 502, `TimeoutError` 504 (fixed
message, no interpolation), anything else 500.  Returns the status and
the message passed to `send_error`. -/
def handleProxyError (e : PyError) : Nat × String :=
  match e.kind with
  | ExcKind.httpException => (502, "Upstream error: " ++ e.msg)
  | ExcKind.sslError => (502, "SSL error: " ++ e.msg)
  | ExcKind.timeoutError => (504, "Upstream timeout")
  | _ => (500, "Proxy error: " ++ e.msg)

/-- Observable actions of one request-handling execution. -/
inductive Event where
  | connCreate
  | upstreamRequest (method path : String) (headers : List (String × String))
      (body : Option Bytes)
  | connClose
  | sendStatus (code : Nat)
  | sendHeader (name value : String)
  | endHeaders
  | writeBody (bs : Bytes)
  | flush
  | sendErrorResp (code : Nat) (msg : String)
deriving DecidableEq

/-- Substring test on character lists (Python `needle in hay`). -/
def listContainsSub (needle : List Char) : List Char → Bool
  | [] => needle.isEmpty
  | c :: rest => needle.isPrefixOf (c :: rest) || listContainsSub needle rest

/-- Python `needle in hay` for strings. -/
def strContains (hay needle : String) : Bool :=
  listContainsSub needle.toList hay.toList

/-- The response-header forwarding loop (lines 80-88): emit a `sendHeader`
for every upstream header not in the response skip-set, and flip the
`is_streaming` flag when a forwarded header is a `content-type` whose value
contains `"text/event-stream"`.  Returns the emitted events and the final
flag. -/
def forwardHeadersLoop : List (String × String) → Bool → List Event × Bool
  | [], streaming => ([], streaming)
  | p :: rest, streaming =>
    if lower p.1 ∈ SKIP_RESPONSE_HEADERS then forwardHeadersLoop rest streaming
    else
      let s1 := streaming ||
        (decide (lower p.1 = "content-type") && strContains p.2 "text/event-stream")
      let r := forwardHeadersLoop rest s1
      (Event.sendHeader p.1 p.2 :: r.1, r.2)

/-- Decrement the pending-successful-reads counter of a body-read fault. -/
def decFail : Option (Nat × PyError) → Option (Nat × PyError)
  | none => none
  | some (n, e) => some (n - 1, e)

/-- The exception the next read raises, if any: a fault whose counter of
remaining successful reads has reached zero. -/
def failsNow : Option (Nat × PyError) → Option PyError
  | some (0, e) => some e
  | _ => none

/-- The SSE streaming loop (lines 95-100): `chunk = response.read(4096)`;
stop on an empty chunk; otherwise write the chunk and flush.  `failAfter =
some (n, e)` means the read raises `e` after `n` successful reads; `none`
means every read succeeds.  Returns the completed trace, or the trace so
far with the raised exception. -/
def sseRelayLoop (body : Bytes) (failAfter : Option (Nat × PyError)) :
    List Event ⊕ (List Event × PyError) :=
  match failsNow failAfter with
  | some e => Sum.inr ([], e)
  | none =>
    if h : body = [] then Sum.inl []
    else
      match sseRelayLoop (body.drop 4096) (decFail failAfter) with
      | Sum.inl evs =>
          Sum.inl (Event.writeBody (body.take 4096) :: Event.flush :: evs)
      | Sum.inr (evs, e) =>
          Sum.inr (Event.writeBody (body.take 4096) :: Event.flush :: evs, e)
termination_by body.length
decreasing_by
  simp only [List.length_drop]
  have hb : body.length ≠ 0 := by
    intro h0
    exact h (List.eq_nil_of_length_eq_zero h0)
  omega

/-- Lines 93-103: streaming mode uses the SSE loop; buffered mode reads the
whole body (`response.read()`) and writes it once.  A buffered-mode read
fault raises before anything is written to the caller. -/
def relayBody (streaming : Bool) (body : Bytes) (failAfter : Option (Nat × PyError)) :
    List Event ⊕ (List Event × PyError) :=
  if streaming then sseRelayLoop body failAfter
  else
    match failAfter with
    | some (_, e) => Sum.inr ([], e)
    | none => Sum.inl [Event.writeBody body]

/-- The upstream response used when `getresponse()` succeeds. -/
structure UpstreamResp where
  status : Nat
  headers : List (String × String)
  body : Bytes
deriving DecidableEq

/-- Environment behaviour for one request: whether `conn.request` raises,
whether `conn.getresponse` raises, the response otherwise, and an optional
body-read fault while relaying. -/
structure Scenario where
  requestExc : Option PyError
  responseExc : Option PyError
  resp : UpstreamResp
  bodyFail : Option (Nat × PyError)
deriving DecidableEq

/-- The `try` block of `_proxy_request` (lines 55-105): create the
connection object, build outbound headers, send the upstream request
(may raise), get the response (may raise), send status, forward headers,
relay the body (reads may raise), and close the connection — the
`conn.close()` is executed only when every previous step succeeded; there
is no `finally`.  Returns the completed trace or the trace up to the
raise, with the exception.  `tryHead` names the trace of the block up to
and including `end_headers()` (lines 55-90). -/
def tryHead (apiKey method path : String) (inbound : List (String × String))
    (reqBody : Option Bytes) (sc : Scenario) : List Event :=
  [Event.connCreate,
   Event.upstreamRequest method path (buildOutboundHeaders apiKey inbound) reqBody,
   Event.sendStatus sc.resp.status]
    ++ (forwardHeadersLoop sc.resp.headers false).1 ++ [Event.endHeaders]

def tryBlock (apiKey method path : String) (inbound : List (String × String))
    (reqBody : Option Bytes) (sc : Scenario) :
    List Event ⊕ (List Event × PyError) :=
  match sc.requestExc with
  | some e => Sum.inr ([Event.connCreate], e)
  | none =>
    match sc.responseExc with
    | some e =>
        Sum.inr ([Event.connCreate,
          Event.upstreamRequest method path (buildOutboundHeaders apiKey inbound) reqBody], e)
    | none =>
      match relayBody (forwardHeadersLoop sc.resp.headers false).2 sc.resp.body sc.bodyFail with
      | Sum.inl evs =>
          Sum.inl (tryHead apiKey method path inbound reqBody sc ++ evs ++ [Event.connClose])
      | Sum.inr p =>
          Sum.inr (tryHead apiKey method path inbound reqBody sc ++ p.1, p.2)

/-- Whether the `try` block of the request ran to completion. -/
def trySucceeded (apiKey method path : String) (inbound : List (String × String))
    (reqBody : Option Bytes) (sc : Scenario) : Bool :=
  match tryBlock apiKey method path inbound reqBody sc with
  | Sum.inl _ => true
  | Sum.inr _ => false

/-- `_proxy_request` from the `try` onwards: a raised exception is caught by
the `except` chain and translated by `send_error` — unconditionally, with
no check of whether response bytes were already written. -/
def proxyRequestBody (apiKey method path : String) (inbound : List (String × String))
    (reqBody : Option Bytes) (sc : Scenario) : List Event :=
  match tryBlock apiKey method path inbound reqBody sc with
  | Sum.inl t => t
  | Sum.inr p =>
      p.1 ++ [Event.sendErrorResp (handleProxyError p.2).1 (handleProxyError p.2).2]

/-- Strip leading and trailing whitespace (Python `str.strip()` as applied
by `int()` to its argument). -/
def stripWs (l : List Char) : List Char :=
  ((l.dropWhile Char.isWhitespace).reverse.dropWhile Char.isWhitespace).reverse

/-- Digit run continuation for Python `int()` literals: single underscores
are allowed between digits. -/
def pyDigitTail : List Char → Bool
  | [] => true
  | '_' :: [] => false
  | '_' :: c :: rest => c.isDigit && pyDigitTail rest
  | c :: rest => c.isDigit && pyDigitTail rest

/-- A valid Python `int()` digit sequence: non-empty, starts with a digit,
single underscores only between digits. -/
def pyDigits : List Char → Bool
  | [] => false
  | c :: rest => c.isDigit && pyDigitTail rest

/-- Numeric value of a base-10 digit list. -/
def digitsVal (l : List Char) : Nat :=
  l.foldl (fun a c => a * 10 + (c.toNat - '0'.toNat)) 0

/-- Python `int(s)` for base 10: optional surrounding whitespace, optional
sign, then a digit sequence (underscores allowed between digits); `none`
models the `ValueError` raise on anything else. -/
def pyParseInt (s : String) : Option Int :=
  let t := stripWs s.toList
  let sd : Int × List Char :=
    match t with
    | '+' :: rest => (1, rest)
    | '-' :: rest => (-1, rest)
    | _ => (1, t)
  if pyDigits sd.2 then
    some (sd.1 * (digitsVal (sd.2.filter (fun c => decide (c ≠ '_'))) : Int))
  else none

/-- Lines 47-50 of `_proxy_request`, which run BEFORE the `try`:
`content_length = self.headers.get("Content-Length")`; the body is read
only when that value is truthy (present and non-empty); `int()` on a
non-integer value raises `ValueError` — uncaught at this point.
`rfile.read(n)` returns at most `n` bytes of the inbound stream; a
negative argument reads everything. -/
def readInboundBody (inbound : List (String × String)) (rfileBytes : Bytes) :
    Except PyError (Option Bytes) :=
  match headersGet inbound "Content-Length" with
  | none => Except.ok none
  | some s =>
    if s = "" then Except.ok none
    else
      match pyParseInt s with
      | none =>
          Except.error ⟨ExcKind.valueError,
            "invalid literal for int() with base 10: " ++ s⟩
      | some n =>
          Except.ok (some (if n < 0 then rfileBytes else rfileBytes.take n.toNat))

/-- Outcome of one full `_proxy_request` call: either it ran (possibly
translating a caught exception into an error response), or an exception
escaped before the `try` block and the request unit aborted. -/
inductive RunResult where
  | completed (trace : List Event)
  | uncaught (trace : List Event) (e : PyError)
deriving DecidableEq

/-- The whole of `_proxy_request` (lines 44-114): the pre-`try` body read,
then the guarded relay. -/
def proxyRequest (apiKey method path : String) (inbound : List (String × String))
    (rfileBytes : Bytes) (sc : Scenario) : RunResult :=
  match readInboundBody inbound rfileBytes with
  | Except.error e => RunResult.uncaught [] e
  | Except.ok reqBody =>
      RunResult.completed (proxyRequestBody apiKey method path inbound reqBody sc)

/-- `do_OPTIONS` (lines 122-128): status 200, the three CORS headers,
end of headers; the upstream is never contacted. -/
def doOPTIONS : List Event :=
  [Event.sendStatus 200,
   Event.sendHeader "Access-Control-Allow-Origin" "*",
   Event.sendHeader "Access-Control-Allow-Methods" "GET, POST, OPTIONS",
   Event.sendHeader "Access-Control-Allow-Headers" "*",
   Event.endHeaders]

/-- `main`'s credential preview (line 158): first 12 characters plus an
ellipsis when the key is longer than 12 characters, `"***"` otherwise. -/
def keyPreview (apiKey : String) : String :=
  if apiKey.length > 12 then (apiKey.take 12) ++ "..." else "***"

/-- The startup log line printed when a credential is configured
(lines 159-162). -/
def startupBanner (apiKey : String) : String :=
  "[anthropic-proxy] API key injection enabled: " ++ keyPreview apiKey

/-- Trace of a run, whether or not it aborted. -/
def runTrace : RunResult → List Event
  | RunResult.completed t => t
  | RunResult.uncaught t _ => t

/-- Whether an exception escaped `_proxy_request` (request unit aborted). -/
def runUncaught : RunResult → Bool
  | RunResult.completed _ => false
  | RunResult.uncaught _ _ => true

/-- Count the events satisfying a predicate. -/
def countEvt (f : Event → Bool) (t : List Event) : Nat := (t.filter f).length

/-- Is the event the creation of the upstream connection object? -/
def isCreate : Event → Bool
  | Event.connCreate => true
  | _ => false

/-- Is the event `conn.close()`? -/
def isClose : Event → Bool
  | Event.connClose => true
  | _ => false

/-- Number of upstream connections created in a trace. -/
def countCreate (t : List Event) : Nat := countEvt isCreate t

/-- Number of upstream connection closes in a trace. -/
def countClose (t : List Event) : Nat := countEvt isClose t

/-- The status codes written by `send_response`. -/
def statusesSent (t : List Event) : List Nat :=
  t.filterMap fun e =>
    match e with
    | Event.sendStatus c => some c
    | _ => none

/-- The (status, message) pairs written by `send_error`. -/
def errorsSent (t : List Event) : List (Nat × String) :=
  t.filterMap fun e =>
    match e with
    | Event.sendErrorResp c m => some (c, m)
    | _ => none

/-- The headers written by `send_header`. -/
def headersSent (t : List Event) : List (String × String) :=
  t.filterMap fun e =>
    match e with
    | Event.sendHeader n v => some (n, v)
    | _ => none

/-- The body chunks written to the caller. -/
def writesOf (t : List Event) : List Bytes :=
  t.filterMap fun e =>
    match e with
    | Event.writeBody b => some b
    | _ => none

/-- All bytes written to the caller's body, in order. -/
def writesJoin (t : List Event) : Bytes := (writesOf t).flatten

/-- Does the event put bytes on the client connection (status line,
header, header terminator, or body bytes)? -/
def isClientByte : Event → Bool
  | Event.sendStatus _ => true
  | Event.sendHeader _ _ => true
  | Event.endHeaders => true
  | Event.writeBody _ => true
  | Event.flush => true
  | Event.sendErrorResp _ _ => true
  | _ => false

/-- The client-visible part of a trace: everything except the upstream
request itself (the only event whose payload mentions the outbound
headers, hence the credential). -/
def clientView (t : List Event) : List Event :=
  t.filter fun e =>
    match e with
    | Event.upstreamRequest _ _ _ _ => false
    | _ => true

/-- Well-formedness of an SSE relay trace: an alternation of non-empty
writes of at most 4096 bytes, each immediately followed by a flush. -/
def sseWellFormed : List Event → Bool
  | [] => true
  | Event.writeBody bs :: Event.flush :: rest =>
      decide (bs.length ≤ 4096) && decide (bs ≠ []) && sseWellFormed rest
  | _ => false

/-- The outbound entries whose lowercased name is the credential header name. -/
def credEntries (l : List (String × String)) : List (String × String) :=
  l.filter (fun p => decide (lower p.1 = "x-api-key"))

/-- Spec-side outbound headers as C2 words them: the inbound set minus the
skip-set (case-insensitive), plus a Host header equal to the upstream
host.  This is the definition C2 is checked against; the code's is
`buildOutboundHeaders`. -/
def specC2Outbound (inbound : List (String × String)) : List (String × String) :=
  ("Host", ANTHROPIC_HOST) ::
    inbound.filter (fun p => decide (lower p.1 ∉ SKIP_REQUEST_HEADERS))

theorem dictInsert_fresh (d : List (String × String)) (k v : String)
    (h : ∀ q ∈ d, q.1 ≠ k) : dictInsert d k v = d ++ [(k, v)] := by
  have hany : d.any (fun p => decide (p.1 = k)) = false := by
    rw [List.any_eq_false]
    intro p hp
    simpa using h p hp
  simp [dictInsert, hany]

theorem mem_dictInsert (d : List (String × String)) (k v : String) (p : String × String)
    (hp : p ∈ dictInsert d k v) : p ∈ d ∨ p = (k, v) := by
  unfold dictInsert at hp
  by_cases hc : d.any (fun q => decide (q.1 = k)) = true
  · rw [if_pos hc] at hp
    obtain ⟨q, hq, hfq⟩ := List.mem_map.mp hp
    by_cases hqk : q.1 = k
    · right
      rw [if_pos hqk] at hfq
      exact hfq.symm
    · left
      rw [if_neg hqk] at hfq
      rw [← hfq]
      exact hq
  · rw [if_neg hc] at hp
    rcases List.mem_append.mp hp with h1 | h2
    · exact Or.inl h1
    · exact Or.inr (by simpa using h2)

theorem credEntries_map_overwrite (d : List (String × String)) (k v : String)
    (hk : lower k ≠ "x-api-key") :
    credEntries (d.map (fun p => if p.1 = k then (k, v) else p)) = credEntries d := by
  induction d with
  | nil => rfl
  | cons q rest ih =>
    by_cases hqk : q.1 = k
    · have h1 : (decide (lower k = "x-api-key")) = false := by simpa using hk
      have h2 : (decide (lower q.1 = "x-api-key")) = false := by
        rw [hqk]
        exact h1
      simp only [credEntries, List.map_cons, List.filter_cons, if_pos hqk] at *
      simpa [h1, h2] using ih
    · simp only [credEntries, List.map_cons, List.filter_cons, if_neg hqk] at *
      by_cases hq : (decide (lower q.1 = "x-api-key")) = true
      · simpa [hq] using ih
      · rw [Bool.not_eq_true] at hq
        simpa [hq] using ih

theorem credEntries_dictInsert (d : List (String × String)) (k v : String)
    (hk : lower k ≠ "x-api-key") :
    credEntries (dictInsert d k v) = credEntries d := by
  unfold dictInsert
  by_cases hc : d.any (fun q => decide (q.1 = k)) = true
  · rw [if_pos hc]
    exact credEntries_map_overwrite d k v hk
  · rw [if_neg hc]
    have h1 : (decide (lower k = "x-api-key")) = false := by simpa using hk
    simp [credEntries, List.filter_append, h1]

theorem credEntries_copyHeaders (inbound : List (String × String)) :
    ∀ acc, (∀ p ∈ inbound, lower p.1 ≠ "x-api-key") →
      credEntries (copyHeaders inbound acc) = credEntries acc := by
  induction inbound with
  | nil => intro acc _; rfl
  | cons p rest ih =>
    intro acc hno
    have hp : lower p.1 ≠ "x-api-key" := hno p (List.mem_cons_self p rest)
    have hrest : ∀ q ∈ rest, lower q.1 ≠ "x-api-key" :=
      fun q hq => hno q (List.mem_cons_of_mem p hq)
    unfold copyHeaders
    by_cases hskip : lower p.1 ∈ SKIP_REQUEST_HEADERS
    · rw [if_pos hskip]
      exact ih acc hrest
    · rw [if_neg hskip]
      rw [ih (dictInsert acc p.1 p.2) hrest]
      exact credEntries_dictInsert acc p.1 p.2 hp

theorem mem_copyHeaders (inbound : List (String × String)) :
    ∀ acc p, p ∈ copyHeaders inbound acc → p ∈ acc ∨ p ∈ inbound := by
  induction inbound with
  | nil => intro acc p hp; exact Or.inl hp
  | cons q rest ih =>
    intro acc p hp
    unfold copyHeaders at hp
    by_cases hskip : lower q.1 ∈ SKIP_REQUEST_HEADERS
    · rw [if_pos hskip] at hp
      rcases ih acc p hp with h1 | h2
      · exact Or.inl h1
      · exact Or.inr (List.mem_cons_of_mem q h2)
    · rw [if_neg hskip] at hp
      rcases ih (dictInsert acc q.1 q.2) p hp with h1 | h2
      · rcases mem_dictInsert acc q.1 q.2 p h1 with h3 | h4
        · exact Or.inl h3
        · refine Or.inr ?_
          rw [h4]
          exact List.mem_cons_self q rest
      · exact Or.inr (List.mem_cons_of_mem q h2)

theorem copyHeaders_append (inbound : List (String × String)) :
    ∀ acc, (inbound.map Prod.fst).Nodup →
      (∀ p ∈ inbound, lower p.1 ∉ SKIP_REQUEST_HEADERS → ∀ q ∈ acc, q.1 ≠ p.1) →
      copyHeaders inbound acc
        = acc ++ inbound.filter (fun p => decide (lower p.1 ∉ SKIP_REQUEST_HEADERS)) := by
  induction inbound with
  | nil => intro acc _ _; simp [copyHeaders]
  | cons p rest ih =>
    intro acc hnd hfresh
    rw [List.map_cons, List.nodup_cons] at hnd
    have hndr : (rest.map Prod.fst).Nodup := hnd.2
    have hpnotin : p.1 ∉ rest.map Prod.fst := hnd.1
    unfold copyHeaders
    by_cases hskip : lower p.1 ∈ SKIP_REQUEST_HEADERS
    · rw [if_pos hskip]
      have hrest : ∀ r ∈ rest, lower r.1 ∉ SKIP_REQUEST_HEADERS → ∀ q ∈ acc, q.1 ≠ r.1 :=
        fun r hr hrs q hq => hfresh r (List.mem_cons_of_mem p hr) hrs q hq
      rw [ih acc hndr hrest]
      simp [List.filter_cons, hskip]
    · rw [if_neg hskip]
      have hfr : ∀ q ∈ acc, q.1 ≠ p.1 :=
        fun q hq => hfresh p (List.mem_cons_self p rest) hskip q hq
      rw [dictInsert_fresh acc p.1 p.2 hfr]
      have hrest : ∀ r ∈ rest, lower r.1 ∉ SKIP_REQUEST_HEADERS →
          ∀ q ∈ acc ++ [(p.1, p.2)], q.1 ≠ r.1 := by
        intro r hr hrs q hq
        rcases List.mem_append.mp hq with h1 | h2
        · exact hfresh r (List.mem_cons_of_mem p hr) hrs q h1
        · have hq2 : q = (p.1, p.2) := by simpa using h2
          rw [hq2]
        -- q.1 = p.1; p.1 ≠ r.1 because the names are Nodup
          intro hcon
          exact hpnotin (by
            rw [hcon]
            exact List.mem_map.mpr ⟨r, hr, rfl⟩)
      rw [ih (acc ++ [(p.1, p.2)]) hndr hrest]
      simp [List.filter_cons, hskip, List.append_assoc]

theorem headersGet_none (inbound : List (String × String))
    (hno : ∀ p ∈ inbound, lower p.1 ≠ "x-api-key") :
    headersGet inbound "x-api-key" = none := by
  unfold headersGet
  have hfind : inbound.find? (fun p => decide (lower p.1 = lower "x-api-key")) = none := by
    rw [List.find?_eq_none]
    intro p hp
    have hlow : lower "x-api-key" = "x-api-key" := by decide
    simp [hlow, hno p hp]
  rw [hfind]
  rfl

/-- **C1** (amended).  First part, as claimed: when the configured credential
is non-empty and the inbound headers contain no `x-api-key` header
(case-insensitive), the outbound request carries exactly one
credential-named header, set exactly to the configured value.
Second part, amended: when the inbound request carries the header with a
NON-EMPTY value (the value the case-insensitive lookup finds), every
credential-named header sent upstream is one of the caller's own inbound
entries — the configured credential overwrites nothing.  (The non-empty
condition is forced: a caller-supplied empty `x-api-key` is falsy for
`self.headers.get`, so the code injects the configured credential anyway —
see the counterexample.) -/
theorem c1_credential_injection (apiKey : String) (inbound : List (String × String)) :
    (apiKey ≠ "" → (∀ p ∈ inbound, lower p.1 ≠ "x-api-key") →
      credEntries (buildOutboundHeaders apiKey inbound) = [("x-api-key", apiKey)])
  ∧ (∀ v, headersGet inbound "x-api-key" = some v → v ≠ "" →
      ∀ p ∈ buildOutboundHeaders apiKey inbound, lower p.1 = "x-api-key" →
        p ∈ inbound) := by
  constructor
  · intro hk hno
    have hget : headersGet inbound "x-api-key" = none := headersGet_none inbound hno
    unfold buildOutboundHeaders
    rw [if_pos ⟨hk, by rw [hget]; rfl⟩]
    have hins : dictInsert [("Host", ANTHROPIC_HOST)] "x-api-key" apiKey
        = [("Host", ANTHROPIC_HOST), ("x-api-key", apiKey)] := by
      apply dictInsert_fresh
      intro q hq
      have : q = ("Host", ANTHROPIC_HOST) := by simpa using hq
      rw [this]
      decide
    rw [hins, credEntries_copyHeaders inbound _ hno]
    have e1 : (decide (lower "Host" = "x-api-key")) = false := by decide
    have e2 : (decide (lower "x-api-key" = "x-api-key")) = true := by decide
    simp [credEntries, List.filter_cons, e1, e2]
  · intro v hget hv p hp hx
    have hcond : ¬ (apiKey ≠ "" ∧ pyTruthy (headersGet inbound "x-api-key") = false) := by
      rw [hget]
      rintro ⟨-, hpt⟩
      simp [pyTruthy, hv] at hpt
    unfold buildOutboundHeaders at hp
    rw [if_neg hcond] at hp
    rcases mem_copyHeaders inbound _ p hp with hacc | hin
    · exfalso
      have : p = ("Host", ANTHROPIC_HOST) := by simpa using hacc
      rw [this] at hx
      exact absurd hx (by decide)
    · exact hin

/-- **C1 counterexample** (refutes the claim as stated).  The caller already
carries the credential header — `X-Api-Key` with the empty value, found by
the handler's own case-insensitive lookup — yet the outbound request does
NOT preserve it unmodified: the configured credential is injected
alongside it, because line 65 tests truthiness of the value, not presence
of the header. -/
theorem c1_counterexample_injected_despite_present :
    headersGet [("X-Api-Key", "")] "x-api-key" = some ""
  ∧ buildOutboundHeaders "configured-secret-key" [("X-Api-Key", "")]
      = [("Host", "api.anthropic.com"),
         ("x-api-key", "configured-secret-key"),
         ("X-Api-Key", "")] := by
  constructor
  · decide
  · decide

/-- Witness for `c1_credential_injection` at concrete inputs. -/
theorem c1_credential_injection_witness :
    credEntries (buildOutboundHeaders "sek" [("Accept", "a")]) = [("x-api-key", "sek")]
  ∧ ("X-Api-Key", "v") ∈ ([("X-Api-Key", "v")] : List (String × String)) := by
  constructor
  · exact (c1_credential_injection "sek" [("Accept", "a")]).1 (by decide) (by decide)
  · exact (c1_credential_injection "sek" [("X-Api-Key", "v")]).2 "v" (by decide)
      (by decide) ("X-Api-Key", "v") (by decide) (by decide)

/-- **C2** (amended).  For inbound requests whose header names are distinct
(the inbound header mapping of the data model): when the caller supplies a
non-empty `x-api-key` or no credential is configured, the outbound headers
are exactly the inbound set minus the skip-set plus the Host header; when
a non-empty credential is configured and no inbound header is named
`x-api-key` (case-insensitive), the outbound headers are additionally the
injected credential header, placed right after Host.  (The injected
credential is the amendment the counterexample forces: the claim as
stated omits it.) -/
theorem c2_outbound_header_set (apiKey : String) (inbound : List (String × String))
    (hnd : (inbound.map Prod.fst).Nodup) :
    ((pyTruthy (headersGet inbound "x-api-key") = true ∨ apiKey = "") →
      buildOutboundHeaders apiKey inbound = specC2Outbound inbound)
  ∧ (apiKey ≠ "" → (∀ p ∈ inbound, lower p.1 ≠ "x-api-key") →
      buildOutboundHeaders apiKey inbound
        = ("Host", ANTHROPIC_HOST) :: ("x-api-key", apiKey) ::
            inbound.filter (fun p => decide (lower p.1 ∉ SKIP_REQUEST_HEADERS))) := by
  have hhostname : ∀ p ∈ inbound, lower p.1 ∉ SKIP_REQUEST_HEADERS → p.1 ≠ "Host" := by
    intro p _ hns hcon
    apply hns
    rw [hcon]
    decide
  constructor
  · intro hcase
    have hcond : ¬ (apiKey ≠ "" ∧ pyTruthy (headersGet inbound "x-api-key") = false) := by
      rintro ⟨hk, hpt⟩
      rcases hcase with h1 | h2
      · rw [h1] at hpt
        exact absurd hpt (by decide)
      · exact hk h2
    unfold buildOutboundHeaders
    rw [if_neg hcond]
    rw [copyHeaders_append inbound [("Host", ANTHROPIC_HOST)] hnd ?fresh]
    · rfl
    case fresh =>
      intro p hp hns q hq
      have hq2 : q = ("Host", ANTHROPIC_HOST) := by simpa using hq
      rw [hq2]
      exact fun hcon => hhostname p hp hns hcon.symm
  · intro hk hno
    have hget : headersGet inbound "x-api-key" = none := headersGet_none inbound hno
    unfold buildOutboundHeaders
    rw [if_pos ⟨hk, by rw [hget]; rfl⟩]
    have hins : dictInsert [("Host", ANTHROPIC_HOST)] "x-api-key" apiKey
        = [("Host", ANTHROPIC_HOST), ("x-api-key", apiKey)] := by
      apply dictInsert_fresh
      intro q hq
      have : q = ("Host", ANTHROPIC_HOST) := by simpa using hq
      rw [this]
      decide
    rw [hins]
    rw [copyHeaders_append inbound _ hnd ?fresh2]
    · rfl
    case fresh2 =>
      intro p hp hns q hq
      have hq2 : q = ("Host", ANTHROPIC_HOST) ∨ q = ("x-api-key", apiKey) := by
        simpa using hq
      rcases hq2 with h1 | h1
      · rw [h1]
        exact fun hcon => hhostname p hp hns hcon.symm
      · rw [h1]
        intro hcon
        apply hno p hp
        rw [← hcon]
        show lower "x-api-key" = "x-api-key"
        decide

/-- **C2 counterexample** (refutes the claim as stated).  With a configured
credential and an inbound request carrying no headers at all, the outbound
header set is NOT the inbound set minus the skip-set plus Host: it also
contains the injected `x-api-key` header. -/
theorem c2_counterexample_injection_not_in_spec_set :
    buildOutboundHeaders "k" [] ≠ specC2Outbound []
  ∧ buildOutboundHeaders "k" []
      = [("Host", "api.anthropic.com"), ("x-api-key", "k")] := by
  constructor
  · decide
  · decide

/-- Witness for `c2_outbound_header_set` at concrete inputs. -/
theorem c2_outbound_header_set_witness :
    buildOutboundHeaders "" [("Accept", "a"), ("Host", "h")]
      = specC2Outbound [("Accept", "a"), ("Host", "h")]
  ∧ buildOutboundHeaders "k" [("Accept", "a")]
      = ("Host", ANTHROPIC_HOST) :: ("x-api-key", "k") ::
          List.filter (fun p => decide (lower p.1 ∉ SKIP_REQUEST_HEADERS))
            [("Accept", "a")] := by
  constructor
  · exact (c2_outbound_header_set "" [("Accept", "a"), ("Host", "h")]
      (by decide)).1 (Or.inr rfl)
  · exact (c2_outbound_header_set "k" [("Accept", "a")] (by decide)).2
      (by decide) (by decide)

/-- **C3** (amended).  The `except` chain translates HTTP-protocol upstream
errors (`http.client.HTTPException`) and TLS failures (`ssl.SSLError`) to
502 and timeouts to 504 with the fixed message — but a refused TCP
connection (`ConnectionRefusedError`, a plain `OSError`) matches none of
the first three clauses and falls to `except Exception`, yielding 500,
not the 502 the claim states.  The last conjunct ties the translation to
the full handler: when `conn.request` raises, the caller receives exactly
the translated error response. -/
theorem c3_error_status_translation (e : PyError) :
    ((e.kind = ExcKind.httpException ∨ e.kind = ExcKind.sslError) →
      (handleProxyError e).1 = 502)
  ∧ (e.kind = ExcKind.timeoutError → handleProxyError e = (504, "Upstream timeout"))
  ∧ (e.kind = ExcKind.connectionRefused → (handleProxyError e).1 = 500)
  ∧ (∀ (apiKey method path : String) (inbound : List (String × String))
      (reqBody : Option Bytes) (resp : UpstreamResp) (bf : Option (Nat × PyError)),
      errorsSent (proxyRequestBody apiKey method path inbound reqBody
        ⟨some e, none, resp, bf⟩) = [handleProxyError e]) := by
  obtain ⟨k, m⟩ := e
  refine ⟨?_, ?_, ?_, ?_⟩
  · rintro (hk | hk)
    · have hk2 : k = ExcKind.httpException := hk
      subst hk2
      rfl
    · have hk2 : k = ExcKind.sslError := hk
      subst hk2
      rfl
  · intro hk
    have hk2 : k = ExcKind.timeoutError := hk
    subst hk2
    rfl
  · intro hk
    have hk2 : k = ExcKind.connectionRefused := hk
    subst hk2
    rfl
  · intro apiKey method path inbound reqBody resp bf
    simp [proxyRequestBody, tryBlock, errorsSent]

/-- **C3 counterexample** (refutes the claim as stated).  A refused upstream
connection — a network failure establishing the connection — is translated
to 500, not 502: `ConnectionRefusedError` is neither an
`http.client.HTTPException` nor an `ssl.SSLError`, so only the final
`except Exception` clause catches it. -/
theorem c3_counterexample_refusal_gives_500 :
    handleProxyError ⟨ExcKind.connectionRefused, "[Errno 111] Connection refused"⟩
      = (500, "Proxy error: [Errno 111] Connection refused")
  ∧ (handleProxyError ⟨ExcKind.connectionRefused, "[Errno 111] Connection refused"⟩).1
      ≠ 502 := by
  exact ⟨rfl, by decide⟩

/-- Witness for `c3_error_status_translation` at concrete inputs. -/
theorem c3_error_status_translation_witness :
    (handleProxyError ⟨ExcKind.sslError, "m"⟩).1 = 502
  ∧ handleProxyError ⟨ExcKind.timeoutError, "m"⟩ = (504, "Upstream timeout")
  ∧ (handleProxyError ⟨ExcKind.connectionRefused, "m"⟩).1 = 500
  ∧ errorsSent (proxyRequestBody "k" "GET" "/" [] none
      ⟨some ⟨ExcKind.timeoutError, "m"⟩, none, ⟨200, [], []⟩, none⟩)
      = [handleProxyError ⟨ExcKind.timeoutError, "m"⟩] :=
  ⟨(c3_error_status_translation ⟨ExcKind.sslError, "m"⟩).1 (Or.inr rfl),
   (c3_error_status_translation ⟨ExcKind.timeoutError, "m"⟩).2.1 rfl,
   (c3_error_status_translation ⟨ExcKind.connectionRefused, "m"⟩).2.2.1 rfl,
   (c3_error_status_translation ⟨ExcKind.timeoutError, "m"⟩).2.2.2 "k" "GET" "/" [] none
     ⟨200, [], []⟩ none⟩

theorem forwardHeadersLoop_flag (resp : List (String × String)) :
    ∀ b, (forwardHeadersLoop resp b).2
      = (b || resp.any (fun p => decide (lower p.1 = "content-type")
          && strContains p.2 "text/event-stream")) := by
  induction resp with
  | nil => intro b; simp [forwardHeadersLoop]
  | cons p rest ih =>
    intro b
    unfold forwardHeadersLoop
    by_cases hskip : lower p.1 ∈ SKIP_RESPONSE_HEADERS
    · rw [if_pos hskip]
      rw [ih b]
      have hct : (decide (lower p.1 = "content-type")) = false := by
        have : lower p.1 = "transfer-encoding" ∨ lower p.1 = "connection" := by
          simpa [SKIP_RESPONSE_HEADERS] using hskip
        rcases this with h | h <;> simp [h]
      simp [List.any_cons, hct]
    · rw [if_neg hskip]
      dsimp only
      rw [ih]
      simp [List.any_cons, Bool.or_assoc]

theorem sseRelayLoop_none_spec :
    ∀ (n : Nat) (body : Bytes), body.length ≤ n →
      ∃ evs, sseRelayLoop body none = Sum.inl evs
        ∧ sseWellFormed evs = true ∧ writesJoin evs = body := by
  intro n
  induction n with
  | zero =>
    intro body h
    have hb : body = [] := List.eq_nil_of_length_eq_zero (Nat.le_zero.mp h)
    subst hb
    refine ⟨[], ?_, rfl, rfl⟩
    unfold sseRelayLoop
    simp [failsNow]
  | succ n ih =>
    intro body h
    by_cases hb : body = []
    · subst hb
      refine ⟨[], ?_, rfl, rfl⟩
      unfold sseRelayLoop
      simp [failsNow]
    · have hlen : (body.drop 4096).length ≤ n := by
        have h1 : body.length ≠ 0 := fun h0 => hb (List.eq_nil_of_length_eq_zero h0)
        simp only [List.length_drop]
        omega
      obtain ⟨evs, h1, h2, h3⟩ := ih (body.drop 4096) hlen
      refine ⟨Event.writeBody (body.take 4096) :: Event.flush :: evs, ?_, ?_, ?_⟩
      · unfold sseRelayLoop
        simp only [failsNow, decFail]
        rw [dif_neg hb, h1]
      · have ht1 : (body.take 4096).length ≤ 4096 := by
          simp [List.length_take]
        have ht2 : body.take 4096 ≠ [] := by
          simp [List.take_eq_nil_iff, hb]
        simp [sseWellFormed, ht1, ht2, h2]
      · simp only [writesJoin, writesOf, List.filterMap_cons] at h3 ⊢
        simp only [List.flatten_cons] at *
        rw [h3]
        exact List.take_append_drop 4096 body

/-- **C4** (confirmed).  The streaming flag computed by the header-forwarding
loop is true exactly when some `content-type` header value contains the
substring `"text/event-stream"`; and in streaming mode the body is relayed
as an alternation of non-empty writes of at most 4096 bytes, each followed
by a flush, whose concatenation is byte-identical to the upstream body,
ending when a read returns no bytes. -/
theorem c4_streaming_detection_and_chunked_relay
    (resp : List (String × String)) (body : Bytes) :
    (forwardHeadersLoop resp false).2
      = resp.any (fun p => decide (lower p.1 = "content-type")
          && strContains p.2 "text/event-stream")
  ∧ ∃ evs, relayBody true body none = Sum.inl evs
      ∧ sseWellFormed evs = true ∧ writesJoin evs = body := by
  constructor
  · simpa using forwardHeadersLoop_flag resp false
  · simpa [relayBody] using sseRelayLoop_none_spec body.length body le_rfl

/-- **C5** (confirmed).  When no `content-type` value of the upstream
response contains the event-stream marker, the streaming flag is false and
the whole body is written to the caller as a single write, byte-identical
to what upstream sent. -/
theorem c5_buffered_single_write (resp : List (String × String)) (body : Bytes)
    (h : resp.any (fun p => decide (lower p.1 = "content-type")
        && strContains p.2 "text/event-stream") = false) :
    relayBody (forwardHeadersLoop resp false).2 body none
      = Sum.inl [Event.writeBody body] := by
  have hf : (forwardHeadersLoop resp false).2 = false := by
    rw [forwardHeadersLoop_flag resp false, h]
    rfl
  rw [hf]
  rfl

/-- Witness for `c5_buffered_single_write` at concrete inputs. -/
theorem c5_buffered_single_write_witness :
    relayBody (forwardHeadersLoop [("Content-Type", "application/json")] false).2
        [1, 2, 3] none
      = Sum.inl [Event.writeBody [1, 2, 3]] :=
  c5_buffered_single_write [("Content-Type", "application/json")] [1, 2, 3] (by decide)

/-- The trace carried by either side of a relay/try result. -/
def sumTrace : List Event ⊕ (List Event × PyError) → List Event
  | Sum.inl t => t
  | Sum.inr p => p.1

theorem countEvt_append (f : Event → Bool) (a b : List Event) :
    countEvt f (a ++ b) = countEvt f a + countEvt f b := by
  simp [countEvt, List.filter_append]

theorem countEvt_forwardHeaders (f : Event → Bool)
    (hf : ∀ n v, f (Event.sendHeader n v) = false) :
    ∀ (resp : List (String × String)) (b : Bool),
      countEvt f (forwardHeadersLoop resp b).1 = 0 := by
  intro resp
  induction resp with
  | nil => intro b; simp [forwardHeadersLoop, countEvt]
  | cons p rest ih =>
    intro b
    unfold forwardHeadersLoop
    by_cases hskip : lower p.1 ∈ SKIP_RESPONSE_HEADERS
    · rw [if_pos hskip]
      exact ih b
    · rw [if_neg hskip]
      dsimp only
      simp only [countEvt, List.filter_cons, hf p.1 p.2]
      simpa [countEvt] using ih _

theorem countEvt_sseRelay (f : Event → Bool)
    (hw : ∀ bs, f (Event.writeBody bs) = false) (hfl : f Event.flush = false) :
    ∀ (n : Nat) (body : Bytes) (fa : Option (Nat × PyError)), body.length ≤ n →
      countEvt f (sumTrace (sseRelayLoop body fa)) = 0 := by
  intro n
  induction n with
  | zero =>
    intro body fa h
    have hb : body = [] := List.eq_nil_of_length_eq_zero (Nat.le_zero.mp h)
    subst hb
    unfold sseRelayLoop
    cases failsNow fa <;> simp [sumTrace, countEvt]
  | succ n ih =>
    intro body fa h
    by_cases hb : body = []
    · subst hb
      unfold sseRelayLoop
      cases failsNow fa <;> simp [sumTrace, countEvt]
    · have hlen : (body.drop 4096).length ≤ n := by
        have h1 : body.length ≠ 0 := fun h0 => hb (List.eq_nil_of_length_eq_zero h0)
        simp only [List.length_drop]
        omega
      unfold sseRelayLoop
      cases failsNow fa with
      | some e => simp [sumTrace, countEvt]
      | none =>
        rw [dif_neg hb]
        cases hres : sseRelayLoop (body.drop 4096) (decFail fa) with
        | inl evs =>
          have hrec := ih (body.drop 4096) (decFail fa) hlen
          rw [hres] at hrec
          simp only [sumTrace] at hrec
          simp [sumTrace, countEvt, List.filter_cons, hw, hfl]
          simpa [countEvt] using hrec
        | inr p =>
          have hrec := ih (body.drop 4096) (decFail fa) hlen
          rw [hres] at hrec
          simp only [sumTrace] at hrec
          simp [sumTrace, countEvt, List.filter_cons, hw, hfl]
          simpa [countEvt] using hrec

theorem countEvt_relayBody (f : Event → Bool)
    (hw : ∀ bs, f (Event.writeBody bs) = false) (hfl : f Event.flush = false)
    (streaming : Bool) (body : Bytes) (fa : Option (Nat × PyError)) :
    countEvt f (sumTrace (relayBody streaming body fa)) = 0 := by
  cases streaming with
  | true =>
    simpa [relayBody] using
      countEvt_sseRelay f hw hfl body.length body fa le_rfl
  | false =>
    rcases fa with _ | ⟨nf, e⟩
    · simp [relayBody, sumTrace, countEvt, hw]
    · simp [relayBody, sumTrace, countEvt]

theorem countCreate_tryHead (apiKey method path : String)
    (inbound : List (String × String)) (reqBody : Option Bytes) (sc : Scenario) :
    countCreate (tryHead apiKey method path inbound reqBody sc) = 1
  ∧ countClose (tryHead apiKey method path inbound reqBody sc) = 0 := by
  have hc : countEvt isCreate (forwardHeadersLoop sc.resp.headers false).1 = 0 :=
    countEvt_forwardHeaders isCreate (fun _ _ => rfl) sc.resp.headers false
  have hd : countEvt isClose (forwardHeadersLoop sc.resp.headers false).1 = 0 :=
    countEvt_forwardHeaders isClose (fun _ _ => rfl) sc.resp.headers false
  unfold tryHead
  constructor
  · simp [countCreate, countEvt_append, countEvt, isCreate] at hc ⊢
    simpa [countEvt] using hc
  · simp [countClose, countEvt_append, countEvt, isClose] at hd ⊢
    simpa [countEvt] using hd

/-- **C6** (amended).  Every execution of the relay creates exactly one
upstream connection object; the connection is closed exactly when the
`try` block runs to completion — on every error path (upstream request or
response raising, a body-read failure) the `except` clauses send the
translated error but never close the connection, since the code has no
`finally` clause.  The claim's "closed on every exit path" holds only
for the success path. -/
theorem c6_connection_lifecycle (apiKey method path : String)
    (inbound : List (String × String)) (reqBody : Option Bytes) (sc : Scenario) :
    countCreate (proxyRequestBody apiKey method path inbound reqBody sc) = 1
  ∧ countClose (proxyRequestBody apiKey method path inbound reqBody sc)
      = (if trySucceeded apiKey method path inbound reqBody sc then 1 else 0) := by
  obtain ⟨re, rse, resp, bf⟩ := sc
  rcases re with _ | e
  · rcases rse with _ | e2
    · -- no request/response exception: outcome decided by the body relay
      unfold proxyRequestBody trySucceeded tryBlock
      dsimp only
      have hh := countCreate_tryHead apiKey method path inbound reqBody
        (Scenario.mk none none resp bf)
      cases hrel : relayBody (forwardHeadersLoop resp.headers false).2 resp.body bf with
      | inl evs =>
        have hrc : countEvt isCreate evs = 0 := by
          have hr := countEvt_relayBody isCreate (fun _ => rfl) rfl
            (forwardHeadersLoop resp.headers false).2 resp.body bf
          rw [hrel] at hr
          simpa [sumTrace] using hr
        have hrd : countEvt isClose evs = 0 := by
          have hr := countEvt_relayBody isClose (fun _ => rfl) rfl
            (forwardHeadersLoop resp.headers false).2 resp.body bf
          rw [hrel] at hr
          simpa [sumTrace] using hr
        simp only [hrel]
        constructor
        · show countEvt isCreate (_ ++ evs ++ [Event.connClose]) = 1
          rw [countEvt_append, countEvt_append, hrc]
          have h1 : countEvt isCreate (tryHead apiKey method path inbound reqBody
              (Scenario.mk none none resp bf)) = 1 := hh.1
          rw [h1]
          rfl
        · show countEvt isClose (_ ++ evs ++ [Event.connClose]) = _
          rw [countEvt_append, countEvt_append, hrd]
          have h2 : countEvt isClose (tryHead apiKey method path inbound reqBody
              (Scenario.mk none none resp bf)) = 0 := hh.2
          rw [h2]
          rfl
      | inr p =>
        have hrc : countEvt isCreate p.1 = 0 := by
          have hr := countEvt_relayBody isCreate (fun _ => rfl) rfl
            (forwardHeadersLoop resp.headers false).2 resp.body bf
          rw [hrel] at hr
          simpa [sumTrace] using hr
        have hrd : countEvt isClose p.1 = 0 := by
          have hr := countEvt_relayBody isClose (fun _ => rfl) rfl
            (forwardHeadersLoop resp.headers false).2 resp.body bf
          rw [hrel] at hr
          simpa [sumTrace] using hr
        simp only [hrel]
        constructor
        · show countEvt isCreate (_ ++ p.1 ++ [Event.sendErrorResp _ _]) = 1
          rw [countEvt_append, countEvt_append, hrc]
          have h1 : countEvt isCreate (tryHead apiKey method path inbound reqBody
              (Scenario.mk none none resp bf)) = 1 := hh.1
          rw [h1]
          rfl
        · show countEvt isClose (_ ++ p.1 ++ [Event.sendErrorResp _ _]) = _
          rw [countEvt_append, countEvt_append, hrd]
          have h2 : countEvt isClose (tryHead apiKey method path inbound reqBody
              (Scenario.mk none none resp bf)) = 0 := hh.2
          rw [h2]
          rfl
    · unfold proxyRequestBody trySucceeded tryBlock
      dsimp only
      exact ⟨rfl, rfl⟩
  · unfold proxyRequestBody trySucceeded tryBlock
    dsimp only
    exact ⟨rfl, rfl⟩

/-- **C6 counterexample** (refutes the claim as stated).  When
`conn.getresponse()` raises an `HTTPException`, the caller is sent the 502
error but the upstream connection — created by this very request — is
never closed: `conn.close()` (line 105) is unreachable from the `except`
clauses. -/
theorem c6_counterexample_error_path_leaves_open :
    countCreate (proxyRequestBody "k" "GET" "/v1/messages" [] none
      ⟨none, some ⟨ExcKind.httpException, "RemoteDisconnected"⟩, ⟨200, [], []⟩, none⟩) = 1
  ∧ countClose (proxyRequestBody "k" "GET" "/v1/messages" [] none
      ⟨none, some ⟨ExcKind.httpException, "RemoteDisconnected"⟩, ⟨200, [], []⟩, none⟩) = 0
  ∧ errorsSent (proxyRequestBody "k" "GET" "/v1/messages" [] none
      ⟨none, some ⟨ExcKind.httpException, "RemoteDisconnected"⟩, ⟨200, [], []⟩, none⟩)
      = [(502, "Upstream error: RemoteDisconnected")] :=
  ⟨by decide, by decide, by decide⟩

/-- **C7** (code bug demonstration).  A streaming response whose body read
fails after one chunk: the proxy has already written the 200 status line,
the headers and a body chunk to the caller, and then `send_error` emits a
formatted 502 error response into the same stream — the handler never
checks whether response bytes were already sent, contradicting the
claimed "connection is simply dropped, no formatted error after bytes
were written". -/
theorem c7_formatted_error_after_partial_response :
    proxyRequestBody "k" "POST" "/v1/messages" [] none
        ⟨none, none, ⟨200, [("Content-Type", "text/event-stream")], [7]⟩,
          some (1, ⟨ExcKind.httpException, "IncompleteRead"⟩)⟩
      = [Event.connCreate,
         Event.upstreamRequest "POST" "/v1/messages"
           [("Host", "api.anthropic.com"), ("x-api-key", "k")] none,
         Event.sendStatus 200,
         Event.sendHeader "Content-Type" "text/event-stream",
         Event.endHeaders,
         Event.writeBody [7],
         Event.flush,
         Event.sendErrorResp 502 "Upstream error: IncompleteRead"] := by
  have hsse : sseRelayLoop ([7] : Bytes)
      (some (1, ⟨ExcKind.httpException, "IncompleteRead"⟩))
      = Sum.inr ([Event.writeBody [7], Event.flush],
          ⟨ExcKind.httpException, "IncompleteRead"⟩) := by
    unfold sseRelayLoop
    simp only [failsNow, decFail]
    unfold sseRelayLoop
    simp [failsNow]
  have hrb : relayBody true ([7] : Bytes)
      (some (1, ⟨ExcKind.httpException, "IncompleteRead"⟩))
      = Sum.inr ([Event.writeBody [7], Event.flush],
          ⟨ExcKind.httpException, "IncompleteRead"⟩) := by
    unfold relayBody
    simpa using hsse
  unfold proxyRequestBody tryBlock
  dsimp only
  have hfh : forwardHeadersLoop [("Content-Type", "text/event-stream")] false
      = ([Event.sendHeader "Content-Type" "text/event-stream"], true) := by decide
  rw [hfh]
  dsimp only
  rw [hrb]
  decide

/-- **C8** (confirmed).  A pre-flight OPTIONS request never creates an
upstream connection, answers with status 200, sends exactly the three
CORS headers — wildcard origin, the fixed method list, wildcard headers —
and no error. -/
theorem c8_preflight_no_upstream_and_cors :
    countCreate doOPTIONS = 0
  ∧ statusesSent doOPTIONS = [200]
  ∧ headersSent doOPTIONS
      = [("Access-Control-Allow-Origin", "*"),
         ("Access-Control-Allow-Methods", "GET, POST, OPTIONS"),
         ("Access-Control-Allow-Headers", "*")]
  ∧ errorsSent doOPTIONS = [] := by
  exact ⟨by decide, by decide, by decide, by decide⟩

theorem clientView_append (a b : List Event) :
    clientView (a ++ b) = clientView a ++ clientView b := by
  simp [clientView, List.filter_append]

theorem errorsSent_append (a b : List Event) :
    errorsSent (a ++ b) = errorsSent a ++ errorsSent b := by
  simp [errorsSent, List.filterMap_append]

theorem clientView_tryHead_key (k1 k2 method path : String)
    (inbound : List (String × String)) (reqBody : Option Bytes) (sc : Scenario) :
    clientView (tryHead k1 method path inbound reqBody sc)
      = clientView (tryHead k2 method path inbound reqBody sc) := by
  unfold tryHead
  simp [clientView, List.filter_append]

theorem errorsSent_tryHead_key (k1 k2 method path : String)
    (inbound : List (String × String)) (reqBody : Option Bytes) (sc : Scenario) :
    errorsSent (tryHead k1 method path inbound reqBody sc)
      = errorsSent (tryHead k2 method path inbound reqBody sc) := by
  unfold tryHead
  simp [errorsSent, List.filterMap_append]

theorem proxyRequestBody_key_independent (k1 k2 method path : String)
    (inbound : List (String × String)) (reqBody : Option Bytes) (sc : Scenario) :
    clientView (proxyRequestBody k1 method path inbound reqBody sc)
      = clientView (proxyRequestBody k2 method path inbound reqBody sc)
  ∧ errorsSent (proxyRequestBody k1 method path inbound reqBody sc)
      = errorsSent (proxyRequestBody k2 method path inbound reqBody sc) := by
  obtain ⟨re, rse, resp, bf⟩ := sc
  rcases re with _ | e
  · rcases rse with _ | e2
    · unfold proxyRequestBody tryBlock
      dsimp only
      cases hrel : relayBody (forwardHeadersLoop resp.headers false).2 resp.body bf with
      | inl evs =>
        simp only [hrel]
        constructor
        · rw [clientView_append, clientView_append, clientView_append, clientView_append,
            clientView_tryHead_key k1 k2]
        · rw [errorsSent_append, errorsSent_append, errorsSent_append, errorsSent_append,
            errorsSent_tryHead_key k1 k2]
      | inr p =>
        simp only [hrel]
        constructor
        · rw [clientView_append, clientView_append, clientView_append, clientView_append,
            clientView_tryHead_key k1 k2]
        · rw [errorsSent_append, errorsSent_append, errorsSent_append, errorsSent_append,
            errorsSent_tryHead_key k1 k2]
    · unfold proxyRequestBody tryBlock
      dsimp only
      constructor
      · simp [clientView]
      · simp [errorsSent]
  · unfold proxyRequestBody tryBlock
    dsimp only
    exact ⟨rfl, rfl⟩

/-- **C9** (amended).  The request handler's diagnostics are independent of
the configured credential: for any two credential values and the same
environment behaviour, the client-visible trace — statuses, headers, body
bytes, and every error message sent by `send_error` — is byte-identical.
The handler's own formatting thus never introduces the credential; it
could appear in a message only through the exception text the environment
supplies, and the startup banner reveals a (up to 12-character) prefix
preview of the credential, which for some short credentials coincides
with the full credential (see the counterexample). -/
theorem c9_diagnostics_credential_independent (k1 k2 method path : String)
    (inbound : List (String × String)) (rb : Bytes) (sc : Scenario) :
    clientView (runTrace (proxyRequest k1 method path inbound rb sc))
      = clientView (runTrace (proxyRequest k2 method path inbound rb sc))
  ∧ errorsSent (runTrace (proxyRequest k1 method path inbound rb sc))
      = errorsSent (runTrace (proxyRequest k2 method path inbound rb sc)) := by
  unfold proxyRequest
  cases hread : readInboundBody inbound rb with
  | error e => exact ⟨rfl, rfl⟩
  | ok reqBody =>
    dsimp only [runTrace]
    exact proxyRequestBody_key_independent k1 k2 method path inbound reqBody sc

/-- **C9 counterexample** (refutes the claim as stated).  The startup banner
prints a 12-character prefix of the credential followed by `"..."`; for
the configured credential `"abcdefghijkl."` (13 characters, ending in a
dot) the printed log line contains the full credential string as a
substring. -/
theorem c9_counterexample_banner_contains_credential :
    strContains (startupBanner "abcdefghijkl.") "abcdefghijkl." = true
  ∧ ("abcdefghijkl." : String).length > 12 := by
  exact ⟨by decide, by decide⟩

/-- **C10** (amended).  An inbound request whose `Content-Length` value is
non-empty and not a valid integer makes `int()` raise `ValueError` on
line 50 — before the `try` block is entered — so the exception escapes
intact: the request unit aborts with an empty trace, and none of the
500/502/504 translations (nor any status at all) is written to the
caller.  (The non-empty condition is forced: an empty `Content-Length`
value is falsy, so the body read — and the `int()` call — is skipped
entirely and the request proceeds; see the counterexample.) -/
theorem c10_invalid_content_length_aborts (apiKey method path : String)
    (inbound : List (String × String)) (rb : Bytes) (sc : Scenario) (s : String)
    (hs : headersGet inbound "Content-Length" = some s) (hne : s ≠ "")
    (hbad : pyParseInt s = none) :
    proxyRequest apiKey method path inbound rb sc
      = RunResult.uncaught []
          ⟨ExcKind.valueError, "invalid literal for int() with base 10: " ++ s⟩ := by
  unfold proxyRequest readInboundBody
  rw [hs]
  dsimp only
  rw [if_neg hne, hbad]

/-- **C10 counterexample** (refutes the claim as stated).  A request whose
`Content-Length` header value is the empty string — not a valid integer —
does NOT abort: the empty string is falsy, so `int()` is never called and
the request is proxied normally, writing status 200 to the caller. -/
theorem c10_counterexample_empty_value_proceeds :
    runUncaught (proxyRequest "k" "GET" "/" [("Content-Length", "")] []
      ⟨none, none, ⟨200, [], []⟩, none⟩) = false
  ∧ statusesSent (runTrace (proxyRequest "k" "GET" "/" [("Content-Length", "")] []
      ⟨none, none, ⟨200, [], []⟩, none⟩)) = [200] := by
  exact ⟨by decide, by decide⟩

/-- Witness for `c10_invalid_content_length_aborts` at concrete inputs. -/
theorem c10_invalid_content_length_aborts_witness :
    proxyRequest "k" "GET" "/" [("Content-Length", "abc")] []
        ⟨none, none, ⟨200, [], []⟩, none⟩
      = RunResult.uncaught []
          ⟨ExcKind.valueError, "invalid literal for int() with base 10: " ++ "abc"⟩ :=
  c10_invalid_content_length_aborts "k" "GET" "/" [("Content-Length", "abc")] []
    ⟨none, none, ⟨200, [], []⟩, none⟩ "abc" (by decide) (by decide) (by decide)

end AnthropicProxy
